import Mathlib

/-!
Shallow embedding of `scripts/convert-notebooks.py`.

The script converts a fixed set of Jupyter notebooks to Markdown by invoking
the external tool `jupyter nbconvert`, then prepends a fixed Jekyll
front-matter header to each produced file.  We embed:

* the filesystem as an explicit state (`FS`): a set of directories and a
  partial map from paths to text contents;
* the external converter as an oracle (`Converter`): for each source path it
  yields an exit status and, optionally, the content it writes to the derived
  output file (`ConvOutcome`);
* the driver functions `check_dependencies`, `convert_notebook` and `main`,
  translated line by line from the source, with the observable effects
  (attempted jobs, success count, summary line, final filesystem) made
  explicit.

Paths are plain strings.  The absolute repository root
(`Path(__file__).parent.parent` in the source) is abstracted to `"."`;
directory creation (`mkdir(parents=True, exist_ok=True)`) is keyed by the
full directory path, with intermediate parents abstracted away.
-/

/-- Outcome of one invocation of the external converter on a source path:
whether it exited with code zero, and the content it wrote to the derived
output file (`none` when it wrote no file). -/
structure ConvOutcome where
  exitZero : Bool
  output : Option String
  deriving DecidableEq, Repr

/-- The external converter, modelled as an oracle from the (resolved) source
path to its outcome.  A fixed oracle models a deterministic converter: on
every run it behaves the same on the same input. -/
abbrev Converter := String → ConvOutcome

/-- Filesystem state: which directories exist, and the text content of each
existing file (`none` when the file does not exist). -/
structure FS where
  dirs : String → Bool
  files : String → Option String

/-- The empty filesystem: no directories, no files. -/
def FS.empty : FS := { dirs := fun _ => false, files := fun _ => none }

/-- Read the full text content of a file (`open(p).read()`); `none` when the
file does not exist. -/
def FS.read (fs : FS) (p : String) : Option String := fs.files p

/-- Whether a file exists (`Path.exists()`). -/
def FS.fileExists (fs : FS) (p : String) : Bool := (fs.files p).isSome

/-- Whether a directory exists. -/
def FS.dirExists (fs : FS) (d : String) : Bool := fs.dirs d

/-- Overwrite (or create) the file at `p` with content `c`
(`open(p, 'w').write(c)`). -/
def FS.write (fs : FS) (p : String) (c : String) : FS :=
  { fs with files := fun q => if q = p then some c else fs.files q }

/-- `Path.mkdir(parents=True, exist_ok=True)`: create the directory if it is
absent; if it already exists, succeed and leave the filesystem unchanged. -/
def FS.mkdirP (fs : FS) (d : String) : FS :=
  if fs.dirs d then fs else { fs with dirs := fun x => x = d || fs.dirs x }

/-- `OUTPUT_DIR = Path("docs/_tutorials")` from the source. -/
def OUTPUT_DIR : String := "docs/_tutorials"

/-- `REPO_ROOT = Path(__file__).parent.parent`, abstracted to `"."`. -/
def REPO_ROOT : String := "."

/-- `notebook_path = REPO_ROOT / notebook_path`. -/
def resolveSource (notebook_path : String) : String :=
  REPO_ROOT ++ "/" ++ notebook_path

/-- Split a character list at every occurrence of `sep` (structurally
recursive so that concrete instances reduce in the kernel). -/
def splitChars (sep : Char) : List Char → List Char → List (List Char)
  | [], acc => [acc.reverse]
  | c :: cs, acc =>
    if c = sep then acc.reverse :: splitChars sep cs [] else splitChars sep cs (c :: acc)

/-- Interleave `sep` between the pieces (inverse of `splitChars`). -/
def joinWith (sep : Char) : List (List Char) → List Char
  | [] => []
  | [x] => x
  | x :: y :: xs => x ++ sep :: joinWith sep (y :: xs)

/-- The final path component of a path string. -/
def lastComponent (p : String) : String :=
  String.mk ((splitChars '/' p.data []).getLastD p.data)

/-- `Path.stem`: the final path component without its last extension. -/
def stem (p : String) : String :=
  if (splitChars '.' (lastComponent p).data []).length ≤ 1 then lastComponent p
  else String.mk (joinWith '.' ((splitChars '.' (lastComponent p).data []).dropLast))

/-- The derived output path `OUTPUT_DIR / f"{filename}.md"` for a job. -/
def outputFile (notebook_path : String) : String :=
  OUTPUT_DIR ++ "/" ++ stem (resolveSource notebook_path) ++ ".md"

/-- Per-job configuration: the `{"title": ..., "nav_order": ...}` record of
the `NOTEBOOKS` table. -/
structure NotebookConfig where
  title : String
  nav_order : Nat
  deriving DecidableEq, Repr

/-- The static `NOTEBOOKS` configuration table, in its insertion order
(Python dictionaries preserve insertion order). -/
def NOTEBOOKS : List (String × NotebookConfig) :=
  [("examples/user-guide/01-ordination.ipynb", { title := "Ordination Analysis", nav_order := 1 }),
   ("examples/user-guide/02-statistics.ipynb", { title := "Statistical Analysis", nav_order := 2 }),
   ("examples/user-guide/03-clustering.ipynb", { title := "Clustering", nav_order := 3 }),
   ("examples/user-guide/04-ml.ipynb", { title := "Machine Learning", nav_order := 4 })]

/-- The Jekyll front-matter block built in `convert_notebook`, with the job's
title and nav_order substituted, ending in a blank line. -/
def front_matter (config : NotebookConfig) : String :=
  "---\nlayout: default\ntitle: \"" ++ config.title ++
    "\"\nparent: Tutorials\nnav_order: " ++ toString config.nav_order ++ "\n---\n\n"

/-- The `subprocess.run(["jupyter", "nbconvert", ...])` call: consults the
converter oracle at the resolved source path; if the converter wrote output,
the derived output file is overwritten with it.  Returns whether the exit
code was zero, together with the filesystem after the converter's effect. -/
def runConverter (conv : Converter) (src : String) (out : String) (fs : FS) : Bool × FS :=
  match (conv src).output with
  | some c => ((conv src).exitZero, fs.write out c)
  | none => ((conv src).exitZero, fs)

/-- The tail of `convert_notebook` after the nbconvert call: on a nonzero
exit code, return failure (the `except CalledProcessError` branch); if the
expected output file does not exist, return failure; otherwise read its
content, overwrite it with front matter prepended, and return success. -/
def annotateStep (config : NotebookConfig) (out : String) : Bool × FS → Bool × FS
  | (false, s) => (false, s)
  | (true, s) =>
    match s.read out with
    | some content => (true, s.write out (front_matter config ++ content))
    | none => (false, s)

/-- `convert_notebook(notebook_path, config)`: ensure the output directory
exists, invoke the external converter, then verify and annotate the derived
output file.  Returns the job's success flag and the resulting filesystem. -/
def convert_notebook (conv : Converter) (notebook_path : String) (config : NotebookConfig)
    (fs : FS) : Bool × FS :=
  annotateStep config (outputFile notebook_path)
    (runConverter conv (resolveSource notebook_path) (outputFile notebook_path)
      (fs.mkdirP OUTPUT_DIR))

/-- `check_dependencies()`: runs `jupyter nbconvert --version`; `true` iff
that version query is present and exits zero. -/
def check_dependencies (versionQueryOk : Bool) : Bool := versionQueryOk

/-- Observable result of the per-job loop of `main`: the sequence of jobs
attempted (in the order their conversion was invoked), the value of
`success_count`, and the final filesystem. -/
structure JobsResult where
  attempted : List String
  successes : Nat
  fs : FS

/-- The `for notebook, config in NOTEBOOKS.items()` loop of `main`: process
the jobs strictly one after another, threading the filesystem, counting the
jobs whose conversion returned success, and recording the attempt order. -/
def runJobs (conv : Converter) (jobs : List (String × NotebookConfig)) (fs : FS) : JobsResult :=
  match jobs with
  | [] => { attempted := [], successes := 0, fs := fs }
  | (nb, cfg) :: rest =>
    { attempted := nb :: (runJobs conv rest (convert_notebook conv nb cfg fs).2).attempted,
      successes := (if (convert_notebook conv nb cfg fs).1 then 1 else 0) +
        (runJobs conv rest (convert_notebook conv nb cfg fs).2).successes,
      fs := (runJobs conv rest (convert_notebook conv nb cfg fs).2).fs }

/-- The per-job boolean results, in job order: `true` exactly for the jobs
whose `convert_notebook` call returned success. -/
def jobResults (conv : Converter) (jobs : List (String × NotebookConfig)) (fs : FS) :
    List Bool :=
  match jobs with
  | [] => []
  | (nb, cfg) :: rest =>
    (convert_notebook conv nb cfg fs).1 ::
      jobResults conv rest (convert_notebook conv nb cfg fs).2

/-- The final summary line printed by `main`. -/
def summaryLine (n total : Nat) : String :=
  "🎉 Conversion complete! " ++ toString n ++ "/" ++ toString total ++ " notebooks converted"

/-- Observable result of one whole run of `main`: the process exit code, the
jobs attempted, the success count, the summary line (absent when the run
aborted before the loop), and the final filesystem. -/
structure RunResult where
  exitCode : Nat
  attempted : List String
  successes : Nat
  summary : Option String
  fs : FS

/-- `main()`: if the dependency check fails, exit with code 1 before any job;
otherwise process every configured job and print the summary, exiting 0.
(Named `mainRun` because Lean reserves `main` for entry points.) -/
def mainRun (versionQueryOk : Bool) (conv : Converter) (fs : FS) : RunResult :=
  if check_dependencies versionQueryOk then
    { exitCode := 0,
      attempted := (runJobs conv NOTEBOOKS fs).attempted,
      successes := (runJobs conv NOTEBOOKS fs).successes,
      summary := some (summaryLine (runJobs conv NOTEBOOKS fs).successes NOTEBOOKS.length),
      fs := (runJobs conv NOTEBOOKS fs).fs }
  else
    { exitCode := 1, attempted := [], successes := 0, summary := none, fs := fs }

/-- The exit status the converter oracle reports for a job's source path. -/
def convOk (conv : Converter) (nb : String) : Bool := (conv (resolveSource nb)).exitZero

/-- The content the converter oracle writes for a job's source path. -/
def convOut (conv : Converter) (nb : String) : Option String := (conv (resolveSource nb)).output

/-- The converter contract of the spec, restricted to a job list: whenever
the converter exits zero on one of these jobs it actually produced the
derived output file. -/
def ContractOk (conv : Converter) (jobs : List (String × NotebookConfig)) : Prop :=
  ∀ j ∈ jobs, convOk conv j.1 = true → convOut conv j.1 ≠ none

/-- A converter that succeeds on every input, writing fixed content. -/
def convAllOk : Converter := fun _ => { exitZero := true, output := some "# Title\n\nBody text" }

/-- A converter that fails on every input and writes nothing. -/
def convAllFail : Converter := fun _ => { exitZero := false, output := none }

/-- A converter that fails exactly on the second configured notebook and
succeeds (writing fixed content) on every other input. -/
def convFail2 : Converter := fun src =>
  if src = resolveSource "examples/user-guide/02-statistics.ipynb" then
    { exitZero := false, output := none }
  else
    { exitZero := true, output := some "body" }

/-- A filesystem in which the output directory already exists and holds a
pre-existing unrelated file. -/
def fsPre : FS := (FS.empty.mkdirP OUTPUT_DIR).write "docs/_tutorials/keep.md" "keep"


theorem FS.read_write (fs : FS) (p q c : String) :
    (fs.write p c).read q = if q = p then some c else fs.read q := rfl

theorem FS.read_write_self (fs : FS) (p c : String) : (fs.write p c).read p = some c := by
  rw [FS.read_write, if_pos rfl]

theorem FS.read_write_other (fs : FS) (p q c : String) (h : q ≠ p) :
    (fs.write p c).read q = fs.read q := by
  rw [FS.read_write, if_neg h]

theorem FS.read_mkdirP (fs : FS) (d p : String) : (fs.mkdirP d).read p = fs.read p := by
  unfold FS.mkdirP
  split <;> rfl

theorem FS.write_dirs (fs : FS) (p c : String) : (fs.write p c).dirs = fs.dirs := rfl

theorem FS.mkdirP_dirExists (fs : FS) (d : String) : (fs.mkdirP d).dirExists d = true := by
  unfold FS.mkdirP FS.dirExists
  split
  · next h => exact h
  · simp

theorem FS.mkdirP_of_exists (fs : FS) (d : String) (h : fs.dirs d = true) : fs.mkdirP d = fs := by
  simp [FS.mkdirP, h]

theorem runConverter_eq_none (conv : Converter) (src out : String) (fs : FS)
    (h : (conv src).output = none) :
    runConverter conv src out fs = ((conv src).exitZero, fs) := by
  unfold runConverter
  rw [h]

theorem runConverter_eq_some (conv : Converter) (src out : String) (fs : FS) (c : String)
    (h : (conv src).output = some c) :
    runConverter conv src out fs = ((conv src).exitZero, fs.write out c) := by
  unfold runConverter
  rw [h]

theorem runConverter_frame (conv : Converter) (src out : String) (fs : FS) (p : String)
    (hp : p ≠ out) : (runConverter conv src out fs).2.read p = fs.read p := by
  unfold runConverter
  cases h : (conv src).output with
  | none => rfl
  | some c => exact FS.read_write_other fs out p c hp

theorem runConverter_dirs (conv : Converter) (src out : String) (fs : FS) :
    (runConverter conv src out fs).2.dirs = fs.dirs := by
  unfold runConverter
  cases (conv src).output <;> rfl

theorem annotateStep_frame (cfg : NotebookConfig) (out : String) (r : Bool × FS) (p : String)
    (hp : p ≠ out) : (annotateStep cfg out r).2.read p = r.2.read p := by
  obtain ⟨b, s⟩ := r
  cases b
  · rfl
  · show (annotateStep cfg out (true, s)).2.read p = s.read p
    simp only [annotateStep]
    cases hr : s.read out
    · rfl
    · exact FS.read_write_other _ _ _ _ hp

theorem annotateStep_dirs (cfg : NotebookConfig) (out : String) (r : Bool × FS) :
    (annotateStep cfg out r).2.dirs = r.2.dirs := by
  obtain ⟨b, s⟩ := r
  cases b
  · rfl
  · show (annotateStep cfg out (true, s)).2.dirs = s.dirs
    simp only [annotateStep]
    cases hr : s.read out
    · rfl
    · rfl

theorem annotateStep_of_fst_false (cfg : NotebookConfig) (out : String) (r : Bool × FS)
    (h : (annotateStep cfg out r).1 = false) : (annotateStep cfg out r).2 = r.2 := by
  obtain ⟨b, s⟩ := r
  cases b
  · rfl
  · show (annotateStep cfg out (true, s)).2 = s
    cases hr : s.read out with
    | none => simp [annotateStep, hr]
    | some content => simp [annotateStep, hr] at h

theorem convert_notebook_eq_some_true (conv : Converter) (nb : String) (cfg : NotebookConfig)
    (fs : FS) (c : String) (hout : convOut conv nb = some c) (hok : convOk conv nb = true) :
    convert_notebook conv nb cfg fs =
      (true, ((fs.mkdirP OUTPUT_DIR).write (outputFile nb) c).write (outputFile nb)
        (front_matter cfg ++ c)) := by
  have hout2 : (conv (resolveSource nb)).output = some c := hout
  have hok2 : (conv (resolveSource nb)).exitZero = true := hok
  unfold convert_notebook
  rw [runConverter_eq_some _ _ _ _ _ hout2, hok2]
  show annotateStep cfg (outputFile nb) (true, (fs.mkdirP OUTPUT_DIR).write (outputFile nb) c) = _
  simp only [annotateStep]
  rw [FS.read_write_self]

theorem convert_notebook_eq_some_false (conv : Converter) (nb : String) (cfg : NotebookConfig)
    (fs : FS) (c : String) (hout : convOut conv nb = some c) (hok : convOk conv nb = false) :
    convert_notebook conv nb cfg fs = (false, (fs.mkdirP OUTPUT_DIR).write (outputFile nb) c) := by
  have hout2 : (conv (resolveSource nb)).output = some c := hout
  have hok2 : (conv (resolveSource nb)).exitZero = false := hok
  unfold convert_notebook
  rw [runConverter_eq_some _ _ _ _ _ hout2, hok2]
  rfl

theorem convert_notebook_eq_none_false (conv : Converter) (nb : String) (cfg : NotebookConfig)
    (fs : FS) (hout : convOut conv nb = none) (hok : convOk conv nb = false) :
    convert_notebook conv nb cfg fs = (false, fs.mkdirP OUTPUT_DIR) := by
  have hout2 : (conv (resolveSource nb)).output = none := hout
  have hok2 : (conv (resolveSource nb)).exitZero = false := hok
  unfold convert_notebook
  rw [runConverter_eq_none _ _ _ _ hout2, hok2]
  rfl

theorem convert_notebook_read_self (conv : Converter) (nb : String) (cfg : NotebookConfig)
    (fs : FS) (c : String) (hout : convOut conv nb = some c) :
    (convert_notebook conv nb cfg fs).2.read (outputFile nb)
      = some (if convOk conv nb then front_matter cfg ++ c else c) := by
  cases hok : convOk conv nb
  · rw [convert_notebook_eq_some_false conv nb cfg fs c hout hok]
    simp only [Bool.false_eq_true, if_false]
    exact FS.read_write_self _ _ _
  · rw [convert_notebook_eq_some_true conv nb cfg fs c hout hok]
    simp only [if_true]
    exact FS.read_write_self _ _ _

theorem convert_notebook_noop (conv : Converter) (nb : String) (cfg : NotebookConfig)
    (fs : FS) (hout : convOut conv nb = none) (hok : convOk conv nb = false) (p : String) :
    (convert_notebook conv nb cfg fs).2.read p = fs.read p := by
  rw [convert_notebook_eq_none_false conv nb cfg fs hout hok]
  exact FS.read_mkdirP fs OUTPUT_DIR p

theorem convert_notebook_frame (conv : Converter) (nb : String) (cfg : NotebookConfig)
    (fs : FS) (p : String) (hp : p ≠ outputFile nb) :
    (convert_notebook conv nb cfg fs).2.read p = fs.read p := by
  unfold convert_notebook
  rw [annotateStep_frame _ _ _ _ hp, runConverter_frame _ _ _ _ _ hp, FS.read_mkdirP]

theorem convert_notebook_dirs (conv : Converter) (nb : String) (cfg : NotebookConfig) (fs : FS) :
    (convert_notebook conv nb cfg fs).2.dirs = (fs.mkdirP OUTPUT_DIR).dirs := by
  unfold convert_notebook
  rw [annotateStep_dirs, runConverter_dirs]

theorem runJobs_attempted (conv : Converter) (jobs : List (String × NotebookConfig)) :
    ∀ fs : FS, (runJobs conv jobs fs).attempted = jobs.map Prod.fst := by
  induction jobs with
  | nil => intro fs; rfl
  | cons j rest ih =>
    obtain ⟨nb, cfg⟩ := j
    intro fs
    simp only [runJobs, List.map_cons]
    rw [ih]

theorem runJobs_successes (conv : Converter) (jobs : List (String × NotebookConfig)) :
    ∀ fs : FS, (runJobs conv jobs fs).successes = (jobResults conv jobs fs).count true := by
  induction jobs with
  | nil => intro fs; rfl
  | cons j rest ih =>
    obtain ⟨nb, cfg⟩ := j
    intro fs
    simp only [runJobs, jobResults]
    rw [ih, List.count_cons]
    cases (convert_notebook conv nb cfg fs).1 <;> simp [Nat.add_comm]

theorem runJobs_frame (conv : Converter) (jobs : List (String × NotebookConfig)) (p : String) :
    ∀ fs : FS, p ∉ jobs.map (fun j => outputFile j.1) →
      (runJobs conv jobs fs).fs.read p = fs.read p := by
  induction jobs with
  | nil => intro fs _; rfl
  | cons j rest ih =>
    obtain ⟨nb, cfg⟩ := j
    intro fs hp
    simp only [List.map_cons, List.mem_cons, not_or] at hp
    simp only [runJobs]
    rw [ih _ hp.2, convert_notebook_frame _ _ _ _ _ hp.1]

theorem runJobs_fixpoint (conv : Converter) (jobs : List (String × NotebookConfig)) :
    ∀ g : FS, ContractOk conv jobs →
      (∀ j ∈ jobs, ∀ c, convOut conv j.1 = some c →
        g.read (outputFile j.1) = some (if convOk conv j.1 then front_matter j.2 ++ c else c)) →
      ∀ p, (runJobs conv jobs g).fs.read p = g.read p := by
  induction jobs with
  | nil => intro g _ _ p; rfl
  | cons j rest ih =>
    obtain ⟨nb, cfg⟩ := j
    intro g h1 hfix p
    simp only [runJobs]
    have hstep : ∀ q, (convert_notebook conv nb cfg g).2.read q = g.read q := by
      intro q
      cases hco : convOut conv nb with
      | none =>
        have hez : convOk conv nb = false := by
          cases hez : convOk conv nb
          · rfl
          · exact absurd hco (h1 (nb, cfg) (List.mem_cons_self _ _) hez)
        exact convert_notebook_noop conv nb cfg g hco hez q
      | some c =>
        by_cases hq : q = outputFile nb
        · subst hq
          rw [convert_notebook_read_self conv nb cfg g c hco]
          exact (hfix (nb, cfg) (List.mem_cons_self _ _) c hco).symm
        · exact convert_notebook_frame conv nb cfg g q hq
    have hrest := ih (convert_notebook conv nb cfg g).2
      (fun j hj hok => h1 j (List.mem_cons_of_mem _ hj) hok)
      (fun j hj c hc => (hstep (outputFile j.1)).trans (hfix j (List.mem_cons_of_mem _ hj) c hc))
      p
    rw [hrest, hstep p]

theorem runJobs_establishes (conv : Converter) (jobs : List (String × NotebookConfig)) :
    ∀ fs : FS, (jobs.map (fun j => outputFile j.1)).Nodup →
      ∀ j ∈ jobs, ∀ c, convOut conv j.1 = some c →
        (runJobs conv jobs fs).fs.read (outputFile j.1)
          = some (if convOk conv j.1 then front_matter j.2 ++ c else c) := by
  induction jobs with
  | nil => intro fs _ j hj; exact absurd hj (List.not_mem_nil j)
  | cons j0 rest ih =>
    obtain ⟨nb, cfg⟩ := j0
    intro fs hnd j hj c hc
    simp only [List.map_cons, List.nodup_cons] at hnd
    rcases List.mem_cons.mp hj with hj0 | hj0
    · subst hj0
      simp only [runJobs]
      rw [runJobs_frame conv rest (outputFile nb) _ hnd.1,
        convert_notebook_read_self conv nb cfg fs c hc]
    · simp only [runJobs]
      exact ih (convert_notebook conv nb cfg fs).2 hnd.2 j hj0 c hc

theorem NOTEBOOKS_outputs_nodup : (NOTEBOOKS.map (fun j => outputFile j.1)).Nodup := by
  decide

/-- C1: for every job whose conversion succeeds (the converter exits zero
and, per its contract, wrote content `c` to the derived output file), the
job returns success and the final content of the output file is exactly the
fixed front-matter header for that job's title and order concatenated with
exactly the content the converter wrote, with no other modification. -/
theorem successful_job_output_content (conv : Converter) (nb : String) (cfg : NotebookConfig)
    (fs : FS) (c : String) (hok : convOk conv nb = true) (hout : convOut conv nb = some c) :
    (convert_notebook conv nb cfg fs).1 = true ∧
      (convert_notebook conv nb cfg fs).2.read (outputFile nb)
        = some (front_matter cfg ++ c) := by
  rw [convert_notebook_eq_some_true conv nb cfg fs c hout hok]
  exact ⟨rfl, FS.read_write_self _ _ _⟩

/-- Witness for C1, the spec's concrete scenario: job
`{source: "a.ipynb", title: "Ordination Analysis", order: 1}` with a
converter writing `"# Title\n\nBody text"` yields exactly the quoted file
content. -/
theorem successful_job_output_content_witness :
    (convert_notebook convAllOk "a.ipynb" { title := "Ordination Analysis", nav_order := 1 }
        FS.empty).2.read (outputFile "a.ipynb")
      = some "---\nlayout: default\ntitle: \"Ordination Analysis\"\nparent: Tutorials\nnav_order: 1\n---\n\n# Title\n\nBody text" := by
  have h := successful_job_output_content convAllOk "a.ipynb"
    { title := "Ordination Analysis", nav_order := 1 } FS.empty "# Title\n\nBody text" rfl rfl
  exact h.2.trans (by decide)

/-- C2: whenever the dependency check fails, the run exits with a nonzero
exit code, zero conversion jobs are invoked, and the filesystem is left
untouched. -/
theorem dep_check_failure_aborts (ok : Bool) (conv : Converter) (fs : FS)
    (h : check_dependencies ok = false) :
    (mainRun ok conv fs).exitCode ≠ 0 ∧ (mainRun ok conv fs).attempted = [] ∧
      (mainRun ok conv fs).fs = fs := by
  cases ok
  · exact ⟨Nat.one_ne_zero, rfl, rfl⟩
  · exact absurd h (by decide)

/-- Witness for C2: with the version query failing, the run exits nonzero
with no job attempted and no filesystem change. -/
theorem dep_check_failure_aborts_witness :
    check_dependencies false = false ∧
      ((mainRun false convAllOk FS.empty).exitCode ≠ 0 ∧
        (mainRun false convAllOk FS.empty).attempted = [] ∧
        (mainRun false convAllOk FS.empty).fs = FS.empty) :=
  ⟨rfl, dep_check_failure_aborts false convAllOk FS.empty rfl⟩

/-- C3: a per-job failure (converter exit nonzero, or output file absent —
both surface as `convert_notebook` returning `false`) only marks that job as
failed: the job contributes nothing to the success count, and the run still
attempts every subsequent job of the list, in order. -/
theorem job_failure_isolated (conv : Converter) (fs : FS) (nb : String) (cfg : NotebookConfig)
    (rest : List (String × NotebookConfig))
    (h : (convert_notebook conv nb cfg fs).1 = false) :
    (runJobs conv ((nb, cfg) :: rest) fs).attempted = nb :: rest.map Prod.fst ∧
      (runJobs conv ((nb, cfg) :: rest) fs).successes
        = (runJobs conv rest (convert_notebook conv nb cfg fs).2).successes := by
  constructor
  · simp only [runJobs]
    rw [runJobs_attempted]
  · simp only [runJobs, h]
    simp

/-- Witness for C3: a run over one job whose converter fails still attempts
that job and counts zero successes. -/
theorem job_failure_isolated_witness :
    (runJobs convAllFail
        [("examples/user-guide/01-ordination.ipynb",
          { title := "Ordination Analysis", nav_order := 1 })] FS.empty).attempted
      = ["examples/user-guide/01-ordination.ipynb"] ∧
      (runJobs convAllFail
        [("examples/user-guide/01-ordination.ipynb",
          { title := "Ordination Analysis", nav_order := 1 })] FS.empty).successes
      = (runJobs convAllFail []
          (convert_notebook convAllFail "examples/user-guide/01-ordination.ipynb"
            { title := "Ordination Analysis", nav_order := 1 } FS.empty).2).successes :=
  job_failure_isolated convAllFail FS.empty "examples/user-guide/01-ordination.ipynb"
    { title := "Ordination Analysis", nav_order := 1 } [] rfl

/-- C4: whenever the dependency check passes, the run exits with exit code 0
regardless of the converter's behaviour on the individual jobs. -/
theorem run_exits_zero_when_deps_ok (ok : Bool) (conv : Converter) (fs : FS)
    (h : check_dependencies ok = true) : (mainRun ok conv fs).exitCode = 0 := by
  cases ok
  · exact absurd h (by decide)
  · rfl

/-- Witness for C4: even with a converter that fails every job, the run
exits with code 0. -/
theorem run_exits_zero_when_deps_ok_witness :
    (mainRun true convAllFail FS.empty).exitCode = 0 :=
  run_exits_zero_when_deps_ok true convAllFail FS.empty rfl

/-- C5: after a run that passes the dependency check, the reported success
count equals exactly the number of jobs whose conversion returned success,
and the summary line reports that count out of the total number of
configured jobs; in particular, when exactly job 2 of the 4 fails, the
summary reports 3/4. -/
theorem summary_reports_success_count (conv : Converter) (fs : FS) :
    (mainRun true conv fs).successes = (jobResults conv NOTEBOOKS fs).count true ∧
      (mainRun true conv fs).summary
        = some (summaryLine ((jobResults conv NOTEBOOKS fs).count true) NOTEBOOKS.length) ∧
      (mainRun true convFail2 FS.empty).summary
        = some "🎉 Conversion complete! 3/4 notebooks converted" := by
  refine ⟨runJobs_successes conv NOTEBOOKS fs, ?_, by decide⟩
  show some (summaryLine (runJobs conv NOTEBOOKS fs).successes NOTEBOOKS.length) = _
  rw [runJobs_successes]

/-- C6: with an idempotent, contract-conforming converter (a fixed oracle
that, whenever it exits zero on one of the configured jobs, actually wrote
the output file), running the full job set twice produces identical file
contents everywhere: the second run overwrites each output with the same
header-plus-content text, and headers are not stacked. -/
theorem double_run_idempotent (conv : Converter) (fs : FS)
    (hcontract : ContractOk conv NOTEBOOKS) (p : String) :
    (mainRun true conv (mainRun true conv fs).fs).fs.read p
      = (mainRun true conv fs).fs.read p :=
  runJobs_fixpoint conv NOTEBOOKS (runJobs conv NOTEBOOKS fs).fs hcontract
    (fun j hj c hc => runJobs_establishes conv NOTEBOOKS fs NOTEBOOKS_outputs_nodup j hj c hc) p

/-- Witness for C6: a second full run with an always-succeeding converter
leaves the first run's output file unchanged. -/
theorem double_run_idempotent_witness :
    (mainRun true convAllOk (mainRun true convAllOk FS.empty).fs).fs.read
        (outputFile "examples/user-guide/01-ordination.ipynb")
      = (mainRun true convAllOk FS.empty).fs.read
        (outputFile "examples/user-guide/01-ordination.ipynb") :=
  double_run_idempotent convAllOk FS.empty
    (fun _ _ _ hnone => Option.noConfusion hnone)
    (outputFile "examples/user-guide/01-ordination.ipynb")

/-- C7: every job creates the output directory if it is absent; if the
directory already exists the creation step changes nothing (the directory is
reused, not recreated or cleared); and every file other than the job's own
derived output file is left untouched by the job. -/
theorem output_dir_created_reused_frame (conv : Converter) (nb : String) (cfg : NotebookConfig)
    (fs : FS) :
    (convert_notebook conv nb cfg fs).2.dirExists OUTPUT_DIR = true ∧
      (fs.dirExists OUTPUT_DIR = true → (convert_notebook conv nb cfg fs).2.dirs = fs.dirs) ∧
      ∀ p, p ≠ outputFile nb → (convert_notebook conv nb cfg fs).2.read p = fs.read p := by
  refine ⟨?_, ?_, fun p hp => convert_notebook_frame conv nb cfg fs p hp⟩
  · show (convert_notebook conv nb cfg fs).2.dirs OUTPUT_DIR = true
    rw [convert_notebook_dirs]
    exact FS.mkdirP_dirExists fs OUTPUT_DIR
  · intro h
    rw [convert_notebook_dirs, FS.mkdirP_of_exists fs OUTPUT_DIR h]

/-- Witness for C7: on a filesystem where the output directory already
exists and holds an unrelated file, a job leaves the directory set unchanged
and the unrelated file intact. -/
theorem output_dir_created_reused_frame_witness :
    (convert_notebook convAllOk "a.ipynb" { title := "T", nav_order := 1 } fsPre).2.dirs
        = fsPre.dirs ∧
      (convert_notebook convAllOk "a.ipynb" { title := "T", nav_order := 1 } fsPre).2.read
          "docs/_tutorials/keep.md"
        = fsPre.read "docs/_tutorials/keep.md" :=
  ⟨(output_dir_created_reused_frame convAllOk "a.ipynb" { title := "T", nav_order := 1 }
      fsPre).2.1 (by decide),
   (output_dir_created_reused_frame convAllOk "a.ipynb" { title := "T", nav_order := 1 }
      fsPre).2.2 "docs/_tutorials/keep.md" (by decide)⟩

/-- C8: after a passing dependency check, the jobs attempted are exactly the
four configured notebooks, in their configured order, with no reordering,
skipping or interleaving. -/
theorem jobs_attempted_in_configured_order (conv : Converter) (fs : FS) :
    (mainRun true conv fs).attempted =
      ["examples/user-guide/01-ordination.ipynb", "examples/user-guide/02-statistics.ipynb",
       "examples/user-guide/03-clustering.ipynb", "examples/user-guide/04-ml.ipynb"] := by
  show (runJobs conv NOTEBOOKS fs).attempted = _
  rw [runJobs_attempted]
  rfl

/-- C9: when a job fails — converter exit nonzero or output file absent —
the driver performs no write of its own for that job: the resulting
filesystem is exactly the state left by the external converter invocation;
in particular no front-matter header is prepended. -/
theorem failed_job_no_driver_write (conv : Converter) (nb : String) (cfg : NotebookConfig)
    (fs : FS) (h : (convert_notebook conv nb cfg fs).1 = false) :
    (convert_notebook conv nb cfg fs).2
      = (runConverter conv (resolveSource nb) (outputFile nb) (fs.mkdirP OUTPUT_DIR)).2 :=
  annotateStep_of_fst_false cfg (outputFile nb)
    (runConverter conv (resolveSource nb) (outputFile nb) (fs.mkdirP OUTPUT_DIR)) h

/-- Witness for C9: a failing converter leaves the filesystem exactly as the
converter invocation left it. -/
theorem failed_job_no_driver_write_witness :
    (convert_notebook convAllFail "a.ipynb" { title := "Ordination Analysis", nav_order := 1 }
        FS.empty).2
      = (runConverter convAllFail (resolveSource "a.ipynb") (outputFile "a.ipynb")
          (FS.empty.mkdirP OUTPUT_DIR)).2 :=
  failed_job_no_driver_write convAllFail "a.ipynb"
    { title := "Ordination Analysis", nav_order := 1 } FS.empty rfl

/-- C10: in the static `NOTEBOOKS` configuration the nav_order values are,
in configured iteration order, exactly 1, 2, 3, 4: positive, pairwise
distinct and strictly ascending. -/
theorem nav_orders_positive_unique_ascending :
    NOTEBOOKS.map (fun j => j.2.nav_order) = [1, 2, 3, 4] ∧
      (NOTEBOOKS.map (fun j => j.2.nav_order)).Nodup ∧
      List.Chain' (fun a b => a < b) (NOTEBOOKS.map (fun j => j.2.nav_order)) ∧
      ∀ o ∈ NOTEBOOKS.map (fun j => j.2.nav_order), 0 < o := by
  refine ⟨by decide, by decide, ?_, by decide⟩
  have h4 : NOTEBOOKS.map (fun j => j.2.nav_order) = [1, 2, 3, 4] := by decide
  rw [h4]
  exact List.Chain.cons (by decide) (List.Chain.cons (by decide)
    (List.Chain.cons (by decide) List.Chain.nil))
